import Mathlib

/-!
Verification of the task-management backend (token verification and
per-user task access control).

The definitions below are a shallow embedding of the backend source:

* `verify_token`, `verify_user_access`  — backend/auth.py
* `Task`                                — backend/models.py
* `create_task`, `get_tasks`, `get_task`, `update_task`,
  `toggle_task_complete`, `delete_task` — backend/routes/tasks.py
* `validTitle`, `validDescription`      — backend/schemas.py

Timestamps are modelled as integers (`datetime.utcnow` values are totally
ordered; each request handler reads the clock once).  The external codec
and cryptography primitives used by auth.py (base64 decoding + JSON
parsing of a segment, and the JWT library's HMAC signature check) are
modelled as an explicit environment `DecodeEnv` of pure functions; the
control flow around them is translated from the source.
-/

deriving instance DecidableEq for Except

namespace TodoApp

/-- Python `token.split('.')` (auth.py line 54): split at every dot; the
empty string yields `[""]`, so the result never has fewer than 1 part. -/
def splitDots (s : String) : List String :=
  (s.toList.foldr (fun c acc =>
    match acc with
    | [] => [[c]]
    | cur :: rest => if c = '.' then [] :: cur :: rest else (c :: cur) :: rest)
    [[]]).map (fun l => String.mk l)

/-- A JSON value, as produced by `json.loads` / the JWT library's payload
decoding.  Only the shapes relevant to the claims are distinguished;
`jnull` models JSON `null` (Python `None`). -/
inductive JVal where
  | jstr (s : String)
  | jnum (n : Int)
  | jbool (b : Bool)
  | jnull
  deriving DecidableEq, Repr

/-- A decoded JSON object (Python `dict`), as an association list. -/
def Payload := List (String × JVal)

instance : DecidableEq Payload := by
  unfold Payload
  infer_instance

/-- The first binding of key `k`, if any (the raw `dict` entry). -/
def Payload.getEntry (p : Payload) (k : String) : Option (String × JVal) :=
  p.find? (fun kv => kv.1 == k)

/-- Python `dict.get k`: `None` both when the key is absent and when the
stored value is JSON `null` (Python `None`). -/
def Payload.pyGet (p : Payload) (k : String) : Option JVal :=
  match p.getEntry k with
  | none => none
  | some (_, JVal.jnull) => none
  | some (_, v) => some v

/-- Result of the TEST_MODE payload decoding in auth.py lines 62-69
(`base64.b64decode` after padding fixup, UTF-8 decode, `json.loads`):
either an exception (`binascii.Error`/`UnicodeDecodeError` are
`ValueError`s and `json.JSONDecodeError` is caught explicitly), or a JSON
value that is not an object (on which the later `payload.get` raises an
uncaught `AttributeError`), or a JSON object. -/
inductive TestPayloadDecode where
  | fail
  | nonObject
  | obj (p : Payload)
  deriving DecidableEq

/-- The external codec/crypto collaborators of auth.py, as pure functions:

* `testDecodePayload s`   — TEST_MODE manual decoding of payload segment `s`
  (auth.py lines 62-69);
* `strictDecodePayload s` — the JWT library's base64url + JSON decoding of
  payload segment `s` (`none` models a `DecodeError`, which also covers a
  payload that is not a JSON object);
* `sigValid tok`          — the JWT library's verification of the whole
  token `tok` (header algorithm accepted and HMAC signature correct for
  the configured secret and algorithm). -/
structure DecodeEnv where
  testDecodePayload : String → TestPayloadDecode
  strictDecodePayload : String → Option Payload
  sigValid : String → Bool

/-- Internal failure of the JWT library's `jwt.decode`. -/
inductive JwtErr where
  | expiredSig
  | invalidTok
  | pyCrash
  deriving DecidableEq

/-- Python `int(v)` applied to a JSON value (used by the library on the
`exp` claim): truncation of numbers, parsing of strings, booleans as 0/1;
`none` models the uncaught `TypeError` on `None`. -/
def intOfJVal : JVal → Option Int
  | JVal.jnum n => some n
  | JVal.jstr s => s.toInt?
  | JVal.jbool b => some (if b then 1 else 0)
  | JVal.jnull => none

/-- The strict-mode call `jwt.decode(token, JWT_SECRET, algorithms=[JWT_ALGORITHM])`
(auth.py line 72).  The library splits the token (any token without exactly
3 dot-separated segments fails with a `DecodeError`: fewer segments raise
"Not enough segments" and more make the payload/signature segments
undecodable), decodes header and payload, verifies the signature, and only
then validates the `exp` claim: `exp <= now` (key present in the payload)
raises `ExpiredSignatureError`.  `DecodeError`, `InvalidSignatureError` and
`ExpiredSignatureError` are all `InvalidTokenError`s. -/
def jwtDecode (env : DecodeEnv) (now : Int) (token : String) : Except JwtErr Payload :=
  let parts := splitDots token
  if parts.length ≠ 3 then Except.error JwtErr.invalidTok
  else
    match env.strictDecodePayload (parts.getD 1 "") with
    | none => Except.error JwtErr.invalidTok
    | some p =>
      if env.sigValid token then
        match p.getEntry "exp" with
        | none => Except.ok p
        | some (_, v) =>
          match intOfJVal v with
          | none => Except.error JwtErr.pyCrash
          | some e => if e ≤ now then Except.error JwtErr.expiredSig else Except.ok p
      else Except.error JwtErr.invalidTok

/-- Outcome of `verify_token`, distinguished by the HTTP response the code
produces: the four 401 branches carry distinct `detail` strings
("Invalid token format", "Token has expired",
"Invalid authentication credentials", "Could not validate credentials"),
and `serverError` models an uncaught exception (HTTP 500). -/
inductive VerifyErr where
  | invalidFormat
  | expired
  | missingSubject
  | couldNotValidate
  | serverError
  deriving DecidableEq, Repr

/-- auth.py `verify_token`: in TEST_MODE split the token, require exactly 3
segments ("Invalid token format" otherwise), manually decode the payload
segment; in production mode call the JWT library.  In both modes extract
the `sub` claim with `payload.get` and fail with
"Invalid authentication credentials" when it yields `None`; otherwise the
claim's value is returned as the identity (the code performs no type
check on it). -/
def verify_token (testMode : Bool) (env : DecodeEnv) (now : Int) (token : String) :
    Except VerifyErr JVal :=
  if testMode then
    let parts := splitDots token
    if parts.length ≠ 3 then Except.error VerifyErr.invalidFormat
    else
      match env.testDecodePayload (parts.getD 1 "") with
      | TestPayloadDecode.fail => Except.error VerifyErr.couldNotValidate
      | TestPayloadDecode.nonObject => Except.error VerifyErr.serverError
      | TestPayloadDecode.obj p =>
        match p.pyGet "sub" with
        | none => Except.error VerifyErr.missingSubject
        | some v => Except.ok v
  else
    match jwtDecode env now token with
    | Except.error JwtErr.expiredSig => Except.error VerifyErr.expired
    | Except.error JwtErr.invalidTok => Except.error VerifyErr.couldNotValidate
    | Except.error JwtErr.pyCrash => Except.error VerifyErr.serverError
    | Except.ok p =>
      match p.pyGet "sub" with
      | none => Except.error VerifyErr.missingSubject
      | some v => Except.ok v

/-- auth.py `verify_user_access`: raises 403 when the path user id differs
from the authenticated one (exact string comparison); returns silently
otherwise.  Modelled as the boolean guard each route applies first. -/
def verify_user_access (user_id authenticated_user_id : String) : Bool :=
  user_id == authenticated_user_id

/-- models.py `Task`: one todo item row. -/
structure Task where
  id : Nat
  user_id : String
  title : String
  description : Option String
  completed : Bool
  created_at : Int
  updated_at : Int
  deriving DecidableEq, Repr

/-- The tasks table plus its autoincrement counter (SQLite assigns the
next primary key on insert). -/
structure Store where
  tasks : List Task
  nextId : Nat
  deriving DecidableEq, Repr

/-- `session.get(Task, task_id)`: primary-key lookup. -/
def getById (s : Store) (task_id : Nat) : Option Task :=
  s.tasks.find? (fun t => t.id == task_id)

/-- `session.add` + `commit` of a mutated row: the row with the task's
primary key is replaced. -/
def replaceTask (s : Store) (t : Task) : Store :=
  ⟨s.tasks.map (fun u => if u.id == t.id then t else u), s.nextId⟩

/-- The typed failures the task routes raise (HTTP 403 and 404). -/
inductive ApiError where
  | forbidden
  | notFound
  deriving DecidableEq, Repr

/-- schemas.py `TaskCreate.title` / `TaskUpdate.title`:
`min_length=1, max_length=200`. -/
def validTitle (t : String) : Bool :=
  decide (1 ≤ t.length) && decide (t.length ≤ 200)

/-- schemas.py `description`: optional, `max_length=1000`. -/
def validDescription : Option String → Bool
  | none => true
  | some d => decide (d.length ≤ 1000)

/-- routes/tasks.py `create_task`: ownership guard, then insert a task
with `completed=false` and both timestamps set from the clock at creation
(models.py initialises `created_at` and `updated_at` with adjacent
`datetime.utcnow` reads, modelled as one instant `now`). -/
def create_task (s : Store) (now : Int) (user_id authenticated_user_id : String)
    (title : String) (description : Option String) : Except ApiError (Task × Store) :=
  if ¬ verify_user_access user_id authenticated_user_id then Except.error ApiError.forbidden
  else
    let t : Task := ⟨s.nextId, user_id, title, description, false, now, now⟩
    Except.ok (t, ⟨s.tasks ++ [t], s.nextId + 1⟩)

/-- routes/tasks.py `get_task`: ownership guard, primary-key lookup, 404
when the row is absent or its `user_id` differs from the path user. -/
def get_task (s : Store) (user_id authenticated_user_id : String) (task_id : Nat) :
    Except ApiError Task :=
  if ¬ verify_user_access user_id authenticated_user_id then Except.error ApiError.forbidden
  else
    match getById s task_id with
    | none => Except.error ApiError.notFound
    | some t =>
      if t.user_id ≠ user_id then Except.error ApiError.notFound
      else Except.ok t

/-- routes/tasks.py `update_task`: same guard and lookup as `get_task`;
on success replaces `title` and `description` and refreshes `updated_at`. -/
def update_task (s : Store) (now : Int) (user_id authenticated_user_id : String)
    (task_id : Nat) (title : String) (description : Option String) :
    Except ApiError (Task × Store) :=
  if ¬ verify_user_access user_id authenticated_user_id then Except.error ApiError.forbidden
  else
    match getById s task_id with
    | none => Except.error ApiError.notFound
    | some t =>
      if t.user_id ≠ user_id then Except.error ApiError.notFound
      else
        let t' := { t with title := title, description := description, updated_at := now }
        Except.ok (t', replaceTask s t')

/-- routes/tasks.py `toggle_task_complete`: same guard and lookup; flips
`completed` and refreshes `updated_at`. -/
def toggle_task_complete (s : Store) (now : Int) (user_id authenticated_user_id : String)
    (task_id : Nat) : Except ApiError (Task × Store) :=
  if ¬ verify_user_access user_id authenticated_user_id then Except.error ApiError.forbidden
  else
    match getById s task_id with
    | none => Except.error ApiError.notFound
    | some t =>
      if t.user_id ≠ user_id then Except.error ApiError.notFound
      else
        let t' := { t with completed := !t.completed, updated_at := now }
        Except.ok (t', replaceTask s t')

/-- routes/tasks.py `delete_task`: same guard and lookup; removes the row. -/
def delete_task (s : Store) (user_id authenticated_user_id : String) (task_id : Nat) :
    Except ApiError Store :=
  if ¬ verify_user_access user_id authenticated_user_id then Except.error ApiError.forbidden
  else
    match getById s task_id with
    | none => Except.error ApiError.notFound
    | some t =>
      if t.user_id ≠ user_id then Except.error ApiError.notFound
      else Except.ok ⟨s.tasks.filter (fun u => u.id != t.id), s.nextId⟩

/-- Query parameter `status` of the list route. -/
inductive StatusFilter where
  | all
  | pending
  | completed
  deriving DecidableEq, Repr

/-- Query parameter `sort` of the list route. -/
inductive SortField where
  | created
  | updated
  | title
  deriving DecidableEq, Repr

/-- Query parameter `order` of the list route. -/
inductive SortOrder where
  | asc
  | desc
  deriving DecidableEq, Repr

/-- The `ORDER BY` comparison for one sort field (`created_at`,
`updated_at` or `title`; SQL ascending text order modelled by `String` order). -/
def sortFieldLe (f : SortField) (a b : Task) : Bool :=
  match f with
  | SortField.created => decide (a.created_at ≤ b.created_at)
  | SortField.updated => decide (a.updated_at ≤ b.updated_at)
  | SortField.title => decide (a.title ≤ b.title)

/-- Insert into a list sorted by `le`, after every element it ties with
(a stable insertion step). -/
def insertTask (le : Task → Task → Bool) (a : Task) : List Task → List Task
  | [] => [a]
  | b :: l => if le b a then b :: insertTask le a l else a :: b :: l

/-- The storage collaborator's `ORDER BY`: a stable sort; ties keep the
storage order (the spec leaves tie order storage-defined). -/
def sortTasks (f : SortField) (ord : SortOrder) (l : List Task) : List Task :=
  match ord with
  | SortOrder.asc => l.foldl (fun acc a => insertTask (sortFieldLe f) a acc) []
  | SortOrder.desc => l.foldl (fun acc a => insertTask (fun a b => sortFieldLe f b a) a acc) []

/-- schemas.py `TaskListResponse`. -/
structure TaskListResponse where
  tasks : List Task
  total : Nat
  pending : Nat
  completed : Nat
  deriving DecidableEq, Repr

/-- routes/tasks.py `get_tasks`: ownership guard, then one query restricted
to the owner, filtered by status, sorted and paginated
(`offset` then `limit`), and a second unrestricted query over the owner's
tasks from which the three aggregate counts are computed. -/
def get_tasks (s : Store) (user_id authenticated_user_id : String)
    (status_filter : StatusFilter) (sort : SortField) (ord : SortOrder)
    (limit offset : Nat) : Except ApiError TaskListResponse :=
  if ¬ verify_user_access user_id authenticated_user_id then Except.error ApiError.forbidden
  else
    let base := s.tasks.filter (fun t => t.user_id == user_id)
    let filtered :=
      match status_filter with
      | StatusFilter.all => base
      | StatusFilter.pending => base.filter (fun t => t.completed == false)
      | StatusFilter.completed => base.filter (fun t => t.completed == true)
    let page := ((sortTasks sort ord filtered).drop offset).take limit
    let all_tasks := s.tasks.filter (fun t => t.user_id == user_id)
    Except.ok
      ⟨page, all_tasks.length,
        (all_tasks.filter (fun t => !t.completed)).length,
        (all_tasks.filter (fun t => t.completed)).length⟩

/-- Claim C1: with the path identity equal to the verified identity, each of
`get_task`, `update_task`, `toggle_task_complete` and `delete_task` on a task
id whose stored row is absent or owned by a different user fails with
`notFound` — never `forbidden`, and no task data is returned. -/
theorem cross_owner_notFound (s : Store) (u : String) (task_id : Nat) (now : Int)
    (title : String) (descr : Option String)
    (hmis : ((getById s task_id).all fun t => t.user_id != u) = true) :
    get_task s u u task_id = Except.error ApiError.notFound ∧
    update_task s now u u task_id title descr = Except.error ApiError.notFound ∧
    toggle_task_complete s now u u task_id = Except.error ApiError.notFound ∧
    delete_task s u u task_id = Except.error ApiError.notFound := by
  have hguard : verify_user_access u u = true := by simp [verify_user_access]
  cases hg : getById s task_id with
  | none =>
    refine ⟨?_, ?_, ?_, ?_⟩ <;>
      simp [get_task, update_task, toggle_task_complete, delete_task, hguard, hg]
  | some t =>
    rw [hg] at hmis
    have hne : t.user_id ≠ u := by simpa using hmis
    refine ⟨?_, ?_, ?_, ?_⟩ <;>
      simp [get_task, update_task, toggle_task_complete, delete_task, hguard, hg, hne]

/-- Store holding a single task owned by user B. -/
def storeB : Store := ⟨[⟨1, "B", "task of B", none, false, 0, 0⟩], 2⟩

/-- Witness for C1: caller A, with a matching path identity, gets `notFound`
on B's task id 1 and on the absent id 2. -/
theorem cross_owner_notFound_witness :
    (get_task storeB "A" "A" 1 = Except.error ApiError.notFound ∧
      update_task storeB 5 "A" "A" 1 "new" none = Except.error ApiError.notFound ∧
      toggle_task_complete storeB 5 "A" "A" 1 = Except.error ApiError.notFound ∧
      delete_task storeB "A" "A" 1 = Except.error ApiError.notFound) ∧
    (get_task storeB "A" "A" 2 = Except.error ApiError.notFound ∧
      update_task storeB 5 "A" "A" 2 "new" none = Except.error ApiError.notFound ∧
      toggle_task_complete storeB 5 "A" "A" 2 = Except.error ApiError.notFound ∧
      delete_task storeB "A" "A" 2 = Except.error ApiError.notFound) :=
  ⟨cross_owner_notFound storeB "A" 1 5 "new" none (by decide),
   cross_owner_notFound storeB "A" 2 5 "new" none (by decide)⟩

/-- Claim C2: when the path identity differs from the verified identity,
every task operation fails with `forbidden`.  The store argument is
universally quantified and the error result carries no store, so the
outcome neither reads nor changes storage. -/
theorem mismatch_forbidden (s : Store) (u a : String) (h : u ≠ a) (now : Int)
    (task_id : Nat) (title : String) (descr : Option String)
    (f : StatusFilter) (sf : SortField) (ord : SortOrder) (limit offset : Nat) :
    create_task s now u a title descr = Except.error ApiError.forbidden ∧
    get_tasks s u a f sf ord limit offset = Except.error ApiError.forbidden ∧
    get_task s u a task_id = Except.error ApiError.forbidden ∧
    update_task s now u a task_id title descr = Except.error ApiError.forbidden ∧
    toggle_task_complete s now u a task_id = Except.error ApiError.forbidden ∧
    delete_task s u a task_id = Except.error ApiError.forbidden := by
  have hguard : verify_user_access u a = false := by simp [verify_user_access, h]
  refine ⟨?_, ?_, ?_, ?_, ?_, ?_⟩ <;>
    simp [create_task, get_tasks, get_task, update_task, toggle_task_complete,
      delete_task, hguard]

/-- Witness for C2: caller B on user A's path gets `forbidden` on all six
operations, on a store that does hold a task A owns. -/
theorem mismatch_forbidden_witness :
    create_task ⟨[⟨1, "A", "t", none, false, 0, 0⟩], 2⟩ 5 "A" "B" "x" none
        = Except.error ApiError.forbidden ∧
    get_tasks ⟨[⟨1, "A", "t", none, false, 0, 0⟩], 2⟩ "A" "B" StatusFilter.all
        SortField.created SortOrder.desc 100 0 = Except.error ApiError.forbidden ∧
    get_task ⟨[⟨1, "A", "t", none, false, 0, 0⟩], 2⟩ "A" "B" 1
        = Except.error ApiError.forbidden ∧
    update_task ⟨[⟨1, "A", "t", none, false, 0, 0⟩], 2⟩ 5 "A" "B" 1 "x" none
        = Except.error ApiError.forbidden ∧
    toggle_task_complete ⟨[⟨1, "A", "t", none, false, 0, 0⟩], 2⟩ 5 "A" "B" 1
        = Except.error ApiError.forbidden ∧
    delete_task ⟨[⟨1, "A", "t", none, false, 0, 0⟩], 2⟩ "A" "B" 1
        = Except.error ApiError.forbidden :=
  mismatch_forbidden ⟨[⟨1, "A", "t", none, false, 0, 0⟩], 2⟩ "A" "B" (by decide) 5 1 "x"
    none StatusFilter.all SortField.created SortOrder.desc 100 0

/-- Environment in which every payload segment decodes (in both modes) to
a payload with subject "alice" and expiry 0, and the signature check
rejects every token. -/
def envSigBad : DecodeEnv :=
  ⟨fun _ => TestPayloadDecode.obj [("sub", JVal.jstr "alice"), ("exp", JVal.jnum 0)],
   fun _ => some [("sub", JVal.jstr "alice"), ("exp", JVal.jnum 0)],
   fun _ => false⟩

/-- Environment identical to `envSigBad` except that the signature check
accepts every token. -/
def envSigGood : DecodeEnv :=
  ⟨fun _ => TestPayloadDecode.obj [("sub", JVal.jstr "alice"), ("exp", JVal.jnum 0)],
   fun _ => some [("sub", JVal.jstr "alice"), ("exp", JVal.jnum 0)],
   fun _ => true⟩

/-- Counterexample to claim C3 as stated ("regardless of signature
validity"): at `now = 100` the decoded payload's expiry claim 0 lies in
the past, yet with an invalid signature strict-mode verification fails
with the malformed/invalid-signature kind ("Could not validate
credentials"), not with `expired` — the library checks the signature
before the expiry claim. -/
theorem expired_regardless_of_signature_counterexample :
    (envSigBad.strictDecodePayload ((splitDots "h.p.s").getD 1 "")).map
        (fun p => p.getEntry "exp") = some (some ("exp", JVal.jnum 0)) ∧
    (0 : Int) < 100 ∧
    envSigBad.sigValid "h.p.s" = false ∧
    verify_token false envSigBad 100 "h.p.s" = Except.error VerifyErr.couldNotValidate ∧
    verify_token false envSigBad 100 "h.p.s" ≠ Except.error VerifyErr.expired := by
  refine ⟨by decide, by decide, by decide, by decide, by decide⟩

/-- Claim C3 amended: in strict mode, for a structurally valid token whose
payload decodes with an expiry claim not after `now`, verification fails
with `expired` when the signature is valid, and with the
malformed/invalid-signature kind when it is not (the signature is checked
first). -/
theorem strict_expired (env : DecodeEnv) (now : Int) (token : String) (p : Payload)
    (k : String) (e : Int)
    (h3 : (splitDots token).length = 3)
    (hdec : env.strictDecodePayload ((splitDots token).getD 1 "") = some p)
    (hexp : p.getEntry "exp" = some (k, JVal.jnum e))
    (hpast : e ≤ now) :
    (env.sigValid token = true →
      verify_token false env now token = Except.error VerifyErr.expired) ∧
    (env.sigValid token = false →
      verify_token false env now token = Except.error VerifyErr.couldNotValidate) := by
  obtain ⟨a, b, c, hl⟩ := List.length_eq_three.mp h3
  have hdec' : env.strictDecodePayload b = some p := by
    simpa [hl, List.getD] using hdec
  constructor <;> intro hs <;>
    simp [verify_token, jwtDecode, hl, List.getD, hdec', hexp, hs, intOfJVal, hpast]

/-- Witness for the amended C3: with a valid signature and expiry 0 at
`now = 100`, strict-mode verification fails with `expired`; the same
token under `envSigBad` fails with the malformed kind. -/
theorem strict_expired_witness :
    verify_token false envSigGood 100 "h.p.s" = Except.error VerifyErr.expired ∧
    verify_token false envSigBad 100 "h.p.s" = Except.error VerifyErr.couldNotValidate :=
  ⟨(strict_expired envSigGood 100 "h.p.s" [("sub", JVal.jstr "alice"), ("exp", JVal.jnum 0)]
      "exp" 0 (by decide) (by decide) (by decide) (by decide)).1 (by decide),
   (strict_expired envSigBad 100 "h.p.s" [("sub", JVal.jstr "alice"), ("exp", JVal.jnum 0)]
      "exp" 0 (by decide) (by decide) (by decide) (by decide)).2 (by decide)⟩

/-- The payload, if any, that `verify_token` successfully decodes before
extracting the subject claim (mirrors the two decode paths of
`verify_token`). -/
def decodedPayload (testMode : Bool) (env : DecodeEnv) (now : Int) (token : String) :
    Option Payload :=
  if testMode then
    let parts := splitDots token
    if parts.length ≠ 3 then none
    else
      match env.testDecodePayload (parts.getD 1 "") with
      | TestPayloadDecode.obj p => some p
      | _ => none
  else
    match jwtDecode env now token with
    | Except.ok p => some p
    | Except.error _ => none

/-- Environment whose payloads carry the number 7 as subject claim. -/
def envNumSub : DecodeEnv :=
  ⟨fun _ => TestPayloadDecode.obj [("sub", JVal.jnum 7)],
   fun _ => some [("sub", JVal.jnum 7)],
   fun _ => true⟩

/-- Counterexample to claim C4 as stated: a decoded payload whose subject
claim is the number 7 (present but not a string) is not rejected with
`missingSubject` — the code only compares `payload.get("sub")` against
`None` and returns the value unchanged, so a non-string identity is
returned. -/
theorem nonstring_subject_counterexample :
    verify_token true envNumSub 0 "h.p.s" = Except.ok (JVal.jnum 7) ∧
    verify_token true envNumSub 0 "h.p.s" ≠ Except.error VerifyErr.missingSubject ∧
    verify_token false envNumSub 0 "h.p.s" = Except.ok (JVal.jnum 7) := by
  refine ⟨by decide, by decide, by decide⟩

/-- Claim C4 amended: for every token whose decode succeeds (in either
mode), verification fails with `missingSubject` exactly when
`payload.get("sub")` yields `None` (claim absent, or present with value
`null`); any other subject value — string or not — is returned as the
identity. -/
theorem subject_extraction (testMode : Bool) (env : DecodeEnv) (now : Int)
    (token : String) (p : Payload)
    (hdec : decodedPayload testMode env now token = some p) :
    (p.pyGet "sub" = none →
      verify_token testMode env now token = Except.error VerifyErr.missingSubject) ∧
    (∀ v, p.pyGet "sub" = some v → verify_token testMode env now token = Except.ok v) := by
  cases testMode with
  | true =>
    by_cases h3 : (splitDots token).length ≠ 3
    · simp [decodedPayload, h3] at hdec
    · have h3' : (splitDots token).length = 3 := not_ne_iff.mp h3
      obtain ⟨a, b, c, hl⟩ := List.length_eq_three.mp h3'
      cases henv : env.testDecodePayload b <;>
        simp [decodedPayload, h3, hl, List.getD, henv] at hdec
      subst hdec
      constructor
      · intro hsub
        simp [verify_token, h3, hl, List.getD, henv, hsub]
      · intro v hsub
        simp [verify_token, h3, hl, List.getD, henv, hsub]
  | false =>
    cases hj : jwtDecode env now token with
    | error e => simp [decodedPayload, hj] at hdec
    | ok q =>
      simp [decodedPayload, hj] at hdec
      subst hdec
      constructor
      · intro hsub
        simp [verify_token, hj, hsub]
      · intro v hsub
        simp [verify_token, hj, hsub]

/-- Witness for the amended C4: under `envSigGood` the subject "alice" is
returned in both modes, and under an environment whose payload lacks a
subject claim the result is `missingSubject`. -/
theorem subject_extraction_witness :
    verify_token true envSigGood 100 "x.y.z" = Except.ok (JVal.jstr "alice") ∧
    verify_token false envSigGood (-1) "x.y.z" = Except.ok (JVal.jstr "alice") ∧
    verify_token true
        ⟨fun _ => TestPayloadDecode.obj [("foo", JVal.jnum 1)],
         fun _ => some [("foo", JVal.jnum 1)], fun _ => true⟩ 0 "x.y.z"
      = Except.error VerifyErr.missingSubject :=
  ⟨(subject_extraction true envSigGood 100 "x.y.z"
      [("sub", JVal.jstr "alice"), ("exp", JVal.jnum 0)] (by decide)).2
      (JVal.jstr "alice") (by decide),
   (subject_extraction false envSigGood (-1) "x.y.z"
      [("sub", JVal.jstr "alice"), ("exp", JVal.jnum 0)] (by decide)).2
      (JVal.jstr "alice") (by decide),
   (subject_extraction true
      ⟨fun _ => TestPayloadDecode.obj [("foo", JVal.jnum 1)],
       fun _ => some [("foo", JVal.jnum 1)], fun _ => true⟩ 0 "x.y.z"
      [("foo", JVal.jnum 1)] (by decide)).1 (by decide)⟩

/-- Counterexample to claim C6 as stated: in strict mode a one-segment
token fails with the generic malformed kind ("Could not validate
credentials", raised by catching the library's `DecodeError`), not with
the `invalidFormat` kind ("Invalid token format"), which only the
TEST_MODE branch produces. -/
theorem invalid_segments_counterexample :
    (splitDots "abc").length = 1 ∧
    verify_token false envSigGood 0 "abc" = Except.error VerifyErr.couldNotValidate ∧
    verify_token false envSigGood 0 "abc" ≠ Except.error VerifyErr.invalidFormat := by
  refine ⟨by decide, by decide, by decide⟩

/-- Claim C6 amended: a token that does not split into exactly 3
dot-separated segments fails with `invalidFormat` in permissive
(TEST_MODE) verification, and with the malformed
("Could not validate credentials") kind in strict verification; both are
401 Unauthenticated outcomes. -/
theorem invalid_segments (env : DecodeEnv) (now : Int) (token : String)
    (hn : (splitDots token).length ≠ 3) :
    verify_token true env now token = Except.error VerifyErr.invalidFormat ∧
    verify_token false env now token = Except.error VerifyErr.couldNotValidate := by
  constructor <;> simp [verify_token, jwtDecode, hn]

/-- Witness for the amended C6: the empty token (1 segment) and a
two-segment token fail as stated in both modes. -/
theorem invalid_segments_witness :
    (verify_token true envSigGood 0 "" = Except.error VerifyErr.invalidFormat ∧
      verify_token false envSigGood 0 "" = Except.error VerifyErr.couldNotValidate) ∧
    (verify_token true envSigGood 0 "a.b" = Except.error VerifyErr.invalidFormat ∧
      verify_token false envSigGood 0 "a.b" = Except.error VerifyErr.couldNotValidate) :=
  ⟨invalid_segments envSigGood 0 "" (by decide),
   invalid_segments envSigGood 0 "a.b" (by decide)⟩

/-- Claim C10: permissive (TEST_MODE) verification performs no expiry and
no signature check: any 3-segment token whose payload segment decodes to a
JSON object with a non-`None` subject claim is accepted and that subject
returned — the environment's `sigValid` and the payload's `exp` claim are
unconstrained, and `now` is arbitrary. -/
theorem testmode_no_verification (env : DecodeEnv) (now : Int) (token : String)
    (p : Payload) (v : JVal)
    (h3 : (splitDots token).length = 3)
    (hdec : env.testDecodePayload ((splitDots token).getD 1 "") = TestPayloadDecode.obj p)
    (hsub : p.pyGet "sub" = some v) :
    verify_token true env now token = Except.ok v := by
  obtain ⟨a, b, c, hl⟩ := List.length_eq_three.mp h3
  have hdec' : env.testDecodePayload b = TestPayloadDecode.obj p := by
    simpa [hl, List.getD] using hdec
  simp [verify_token, hl, List.getD, hdec', hsub]

/-- Witness for C10: under `envSigBad` (signature invalid for every token,
expiry 0 in the past of `now = 100`) the 3-segment token is accepted in
TEST_MODE and the subject "alice" returned. -/
theorem testmode_no_verification_witness :
    verify_token true envSigBad 100 "h.p.s" = Except.ok (JVal.jstr "alice") :=
  testmode_no_verification envSigBad 100 "h.p.s"
    [("sub", JVal.jstr "alice"), ("exp", JVal.jnum 0)] (JVal.jstr "alice")
    (by decide) (by decide) (by decide)

/-- The owner's full task set, in storage order (the `WHERE user_id = ...`
restriction both queries of `get_tasks` share). -/
def ownedTasks (s : Store) (u : String) : List Task :=
  s.tasks.filter (fun t => t.user_id == u)

/-- The `status` query parameter's restriction. -/
def applyStatusFilter (f : StatusFilter) (l : List Task) : List Task :=
  match f with
  | StatusFilter.all => l
  | StatusFilter.pending => l.filter (fun t => t.completed == false)
  | StatusFilter.completed => l.filter (fun t => t.completed == true)

/-- `get_tasks` with matching identities always succeeds, returning the
filtered/sorted/paginated page and counts over the full owned set. -/
theorem get_tasks_ok (s : Store) (u : String) (f : StatusFilter) (sf : SortField)
    (ord : SortOrder) (limit offset : Nat) :
    get_tasks s u u f sf ord limit offset =
      Except.ok
        ⟨((sortTasks sf ord (applyStatusFilter f (ownedTasks s u))).drop offset).take limit,
          (ownedTasks s u).length,
          ((ownedTasks s u).filter (fun t => !t.completed)).length,
          ((ownedTasks s u).filter (fun t => t.completed)).length⟩ := by
  have hguard : verify_user_access u u = true := by simp [verify_user_access]
  cases f <;> simp [get_tasks, hguard, applyStatusFilter, ownedTasks]

/-- Claim C5: every successful list result consists of the owner's tasks
restricted by the status filter, sorted, then sliced by offset and limit,
while `total`, `pending` and `completed` are counted over the owner's
entire task set; consequently the three counts agree across every choice
of status filter, limit and offset. -/
theorem list_pagination_statistics (s : Store) (u : String) (f : StatusFilter)
    (sf : SortField) (ord : SortOrder) (limit offset : Nat) (r : TaskListResponse)
    (h : get_tasks s u u f sf ord limit offset = Except.ok r) :
    r.tasks =
      ((sortTasks sf ord (applyStatusFilter f (ownedTasks s u))).drop offset).take limit ∧
    r.total = (ownedTasks s u).length ∧
    r.pending = ((ownedTasks s u).filter (fun t => !t.completed)).length ∧
    r.completed = ((ownedTasks s u).filter (fun t => t.completed)).length ∧
    (∀ f2 limit2 offset2 r2,
      get_tasks s u u f2 sf ord limit2 offset2 = Except.ok r2 →
      r2.total = r.total ∧ r2.pending = r.pending ∧ r2.completed = r.completed) := by
  rw [get_tasks_ok] at h
  have hr := (Except.ok.inj h).symm
  subst hr
  refine ⟨rfl, rfl, rfl, rfl, ?_⟩
  intro f2 limit2 offset2 r2 h2
  rw [get_tasks_ok] at h2
  have hr2 := (Except.ok.inj h2).symm
  subst hr2
  exact ⟨rfl, rfl, rfl⟩

/-- A user with 5 pending tasks (ids 1-5) and 3 completed tasks (ids 6-8);
`created_at` equals the task id. -/
def store8 : Store :=
  ⟨[⟨1, "u", "t1", none, false, 1, 1⟩, ⟨2, "u", "t2", none, false, 2, 2⟩,
    ⟨3, "u", "t3", none, false, 3, 3⟩, ⟨4, "u", "t4", none, false, 4, 4⟩,
    ⟨5, "u", "t5", none, false, 5, 5⟩, ⟨6, "u", "t6", none, true, 6, 6⟩,
    ⟨7, "u", "t7", none, true, 7, 7⟩, ⟨8, "u", "t8", none, true, 8, 8⟩], 9⟩

/-- The response of `list(status=pending, sort=created, order=desc,
limit=2, offset=0)` on `store8`: 2 items, `total=8, pending=5, completed=3`. -/
def resp8 : TaskListResponse :=
  ⟨[⟨5, "u", "t5", none, false, 5, 5⟩, ⟨4, "u", "t4", none, false, 4, 4⟩], 8, 5, 3⟩

/-- Witness for C5, the spec's concrete example: with 5 pending and 3
completed tasks, `list(status=pending, limit=2, offset=0)` returns 2 items
yet counts `total=8, pending=5, completed=3` over the full set. -/
theorem list_pagination_statistics_witness :
    (get_tasks store8 "u" "u" StatusFilter.pending SortField.created SortOrder.desc 2 0 =
        Except.ok resp8 ∧
      resp8.tasks.length = 2 ∧ resp8.total = 8 ∧ resp8.pending = 5 ∧ resp8.completed = 3) ∧
    resp8.total = (ownedTasks store8 "u").length ∧
    resp8.pending = ((ownedTasks store8 "u").filter (fun t => !t.completed)).length ∧
    resp8.completed = ((ownedTasks store8 "u").filter (fun t => t.completed)).length := by
  have h := list_pagination_statistics store8 "u" StatusFilter.pending SortField.created
    SortOrder.desc 2 0 resp8 (by decide)
  exact ⟨⟨by decide, by decide, by decide, by decide, by decide⟩, h.2.1, h.2.2.1, h.2.2.2.1⟩

/-- Claim C7: creating a task with a valid title and description in a store
whose rows all have ids below the autoincrement counter, then reading it
back by its assigned id, returns the task with the given title and
description, `completed = false` and `created_at = updated_at`. -/
theorem create_roundtrip (s : Store) (u : String) (title : String)
    (descr : Option String) (now : Int)
    (hfresh : ∀ t ∈ s.tasks, t.id < s.nextId)
    (_htitle : validTitle title = true) (_hdesc : validDescription descr = true) :
    ∃ t s2, create_task s now u u title descr = Except.ok (t, s2) ∧
      get_task s2 u u t.id = Except.ok t ∧
      t.title = title ∧ t.description = descr ∧ t.completed = false ∧
      t.created_at = t.updated_at := by
  have hguard : verify_user_access u u = true := by simp [verify_user_access]
  refine ⟨⟨s.nextId, u, title, descr, false, now, now⟩,
    ⟨s.tasks ++ [⟨s.nextId, u, title, descr, false, now, now⟩], s.nextId + 1⟩,
    ?_, ?_, rfl, rfl, rfl, rfl⟩
  · simp [create_task, hguard]
  · have hnone : s.tasks.find? (fun t => t.id == s.nextId) = none := by
      rw [List.find?_eq_none]
      intro x hx
      simpa using Nat.ne_of_lt (hfresh x hx)
    simp [get_task, getById, hguard, List.find?_append, hnone]

/-- Witness for C7: creating "Buy milk" with a description in an empty
store and reading it back. -/
theorem create_roundtrip_witness :
    ∃ t s2, create_task ⟨[], 1⟩ 42 "u" "u" "Buy milk" (some "2 liters") =
        Except.ok (t, s2) ∧
      get_task s2 "u" "u" t.id = Except.ok t ∧
      t.title = "Buy milk" ∧ t.description = some "2 liters" ∧ t.completed = false ∧
      t.created_at = t.updated_at :=
  create_roundtrip ⟨[], 1⟩ "u" "Buy milk" (some "2 liters") 42
    (by simp) (by decide) (by decide)

/-- Replacing the row found under `task_id` by a row with the same primary
key makes the lookup return the new row. -/
theorem find?_replace (l : List Task) (task_id : Nat) (t t' : Task)
    (hget : l.find? (fun x => x.id == task_id) = some t) (hid : t'.id = t.id) :
    (l.map (fun x => if x.id == t'.id then t' else x)).find? (fun x => x.id == task_id)
      = some t' := by
  have ht : t.id = task_id := by simpa using List.find?_some hget
  induction l with
  | nil => simp at hget
  | cons a l ih =>
    by_cases ha : a.id = task_id
    · have hpa : (a.id == task_id) = true := by simpa using ha
      simp only [List.find?_cons, hpa] at hget
      have hat : a = t := by simpa using hget
      subst hat
      have h1' : (a.id == t'.id) = true := by simp [hid]
      have h2' : (t'.id == task_id) = true := by simp [hid, ht]
      have hfa2 : (if (a.id == t'.id) = true then t' else a) = t' := by simp [h1']
      simp only [List.map_cons, List.find?_cons, hfa2, h2']
    · have hpa : (a.id == task_id) = false := by simpa using ha
      simp only [List.find?_cons, hpa] at hget
      have hrec := ih hget
      have hne : (a.id == t'.id) = false := by simp [hid, ht, ha]
      have hfa2 : (if (a.id == t'.id) = true then t' else a) = a := by simp [hne]
      simp only [List.map_cons, List.find?_cons, hfa2, hpa]
      exact hrec

/-- `getById` after `replaceTask` (commit of a mutated row with unchanged
primary key). -/
theorem getById_replaceTask (s : Store) (task_id : Nat) (t t' : Task)
    (hget : getById s task_id = some t) (hid : t'.id = t.id) :
    getById (replaceTask s t') task_id = some t' :=
  find?_replace s.tasks task_id t t' hget hid

/-- Claim C8: toggling a task the caller owns flips `completed` and, with
the clock advanced past the task's `updated_at`, strictly increases
`updated_at`; toggling a second time (clock advanced again) returns
`completed` to its original value. -/
theorem toggle_twice (s : Store) (u : String) (task_id : Nat) (t : Task)
    (now1 now2 : Int)
    (hget : getById s task_id = some t) (hown : t.user_id = u)
    (h1 : t.updated_at < now1) (h2 : now1 < now2) :
    ∃ t1 s1 t2 s2,
      toggle_task_complete s now1 u u task_id = Except.ok (t1, s1) ∧
      toggle_task_complete s1 now2 u u task_id = Except.ok (t2, s2) ∧
      t1.completed = !t.completed ∧ t.updated_at < t1.updated_at ∧
      t2.completed = t.completed ∧ t1.updated_at < t2.updated_at := by
  have hguard : verify_user_access u u = true := by simp [verify_user_access]
  have hget1 : getById (replaceTask s { t with completed := !t.completed, updated_at := now1 })
      task_id = some { t with completed := !t.completed, updated_at := now1 } :=
    getById_replaceTask s task_id t
      { t with completed := !t.completed, updated_at := now1 } hget rfl
  refine ⟨{ t with completed := !t.completed, updated_at := now1 },
    replaceTask s { t with completed := !t.completed, updated_at := now1 },
    { t with completed := !(!t.completed), updated_at := now2 },
    replaceTask (replaceTask s { t with completed := !t.completed, updated_at := now1 })
      { t with completed := !(!t.completed), updated_at := now2 },
    ?_, ?_, rfl, h1, by simp, h2⟩
  · simp [toggle_task_complete, hguard, hget, hown]
  · rw [hown] at hget1
    simp [toggle_task_complete, hguard, hget1, hown]

/-- Store holding one pending task of user "u". -/
def storeU : Store := ⟨[⟨1, "u", "t", none, false, 0, 0⟩], 2⟩

/-- Witness for C8: toggling task 1 of `storeU` at times 1 and 2. -/
theorem toggle_twice_witness :
    ∃ t1 s1 t2 s2,
      toggle_task_complete storeU 1 "u" "u" 1 = Except.ok (t1, s1) ∧
      toggle_task_complete s1 2 "u" "u" 1 = Except.ok (t2, s2) ∧
      t1.completed = !false ∧ (0 : Int) < t1.updated_at ∧
      t2.completed = false ∧ t1.updated_at < t2.updated_at :=
  toggle_twice storeU "u" 1 ⟨1, "u", "t", none, false, 0, 0⟩ 1 2
    (by decide) (by decide) (by decide) (by decide)

/-- Claim C9: a successful update replaces only `title`, `description` and
`updated_at` — `completed`, `id`, `user_id` and `created_at` are unchanged
— and the other mutating operation, toggle, also preserves `id`,
`user_id`, `created_at`, `title` and `description`; rows with a different
id survive either mutation unchanged (`owner_id` is set once by
`create_task` and never modified afterwards). -/
theorem update_frame (s : Store) (u : String) (task_id : Nat) (t : Task) (now : Int)
    (title : String) (descr : Option String)
    (hget : getById s task_id = some t) (hown : t.user_id = u) :
    (∃ t' s', update_task s now u u task_id title descr = Except.ok (t', s') ∧
      t'.title = title ∧ t'.description = descr ∧ t'.updated_at = now ∧
      t'.completed = t.completed ∧ t'.id = t.id ∧ t'.user_id = t.user_id ∧
      t'.created_at = t.created_at ∧
      ∀ x ∈ s.tasks, x.id ≠ task_id → x ∈ s'.tasks) ∧
    (∃ t2 s2, toggle_task_complete s now u u task_id = Except.ok (t2, s2) ∧
      t2.id = t.id ∧ t2.user_id = t.user_id ∧ t2.created_at = t.created_at ∧
      t2.title = t.title ∧ t2.description = t.description ∧
      ∀ x ∈ s.tasks, x.id ≠ task_id → x ∈ s2.tasks) := by
  have hguard : verify_user_access u u = true := by simp [verify_user_access]
  have ht : t.id = task_id := by simpa using List.find?_some hget
  have hframe : ∀ (t' : Task), t'.id = t.id →
      ∀ x ∈ s.tasks, x.id ≠ task_id → x ∈ (replaceTask s t').tasks := by
    intro t' hid x hx hxid
    have hfx : (if x.id == t'.id then t' else x) = x := by
      have : (x.id == t'.id) = false := by simp [hid, ht, hxid]
      simp [this]
    exact List.mem_map.mpr ⟨x, hx, hfx⟩
  constructor
  · refine ⟨{ t with title := title, description := descr, updated_at := now },
      replaceTask s { t with title := title, description := descr, updated_at := now },
      ?_, rfl, rfl, rfl, rfl, rfl, rfl, rfl,
      hframe { t with title := title, description := descr, updated_at := now } rfl⟩
    simp [update_task, hguard, hget, hown]
  · refine ⟨{ t with completed := !t.completed, updated_at := now },
      replaceTask s { t with completed := !t.completed, updated_at := now },
      ?_, rfl, rfl, rfl, rfl, rfl,
      hframe { t with completed := !t.completed, updated_at := now } rfl⟩
    simp [toggle_task_complete, hguard, hget, hown]

/-- Witness for C9: updating task 1 of `storeU` and toggling it. -/
theorem update_frame_witness :
    (∃ t' s', update_task storeU 3 "u" "u" 1 "new title" (some "d") = Except.ok (t', s') ∧
      t'.title = "new title" ∧ t'.description = some "d" ∧ t'.updated_at = 3 ∧
      t'.completed = false ∧ t'.id = 1 ∧ t'.user_id = "u" ∧ t'.created_at = 0 ∧
      ∀ x ∈ storeU.tasks, x.id ≠ 1 → x ∈ s'.tasks) ∧
    (∃ t2 s2, toggle_task_complete storeU 3 "u" "u" 1 = Except.ok (t2, s2) ∧
      t2.id = 1 ∧ t2.user_id = "u" ∧ t2.created_at = 0 ∧
      t2.title = "t" ∧ t2.description = none ∧
      ∀ x ∈ storeU.tasks, x.id ≠ 1 → x ∈ s2.tasks) :=
  update_frame storeU "u" 1 ⟨1, "u", "t", none, false, 0, 0⟩ 3 "new title" (some "d")
    (by decide) (by decide)

end TodoApp
